import Mathlib

/-!
Verification of the Miro configuration module (`tv/lib/config.py`) and the
item-list controller layer (`tv/lib/frontends/widgets/itemlistcontroller.py`).

The Python code is shallowly embedded: module-level mutable globals become an
explicit state record threaded through the functions, Python dicts become
association lists with first-match lookup, and the external collaborators
(the platform configuration backend `platformcfg`, the theme/config file
`app.configfile`, the idle-task event loop `eventloop.add_idle`) become
fields of an environment record or entries appended to an explicit queue.
-/

namespace Miro

/-- Python values stored in preferences.  Python booleans are a subtype of
int (`True == 1`), so they are represented by `pyint`; floats do not occur
in the claims under study. -/
inductive PyVal where
  | pystr : String → PyVal
  | pyint : Int → PyVal
  | pynone : PyVal
  deriving DecidableEq, Repr

/-- A preference descriptor (`miro.prefs.Pref`): declared key, default value,
failsafe default, optional allowed-value set, platform-specificity flag.
Field names follow the attributes read by `config.get`/`config.set`. -/
structure Descriptor where
  key : String
  default : PyVal
  failsafe_value : PyVal
  possible_values : Option (List PyVal)
  platformSpecific : Bool

/-- A Python dict keyed by strings, as an association list: lookup returns
the first matching entry, update replaces the entry for the key. -/
abbrev Dict := List (String × PyVal)

/-- `d[k]` / `k in d`: first-match lookup. -/
def dget (d : Dict) (k : String) : Option PyVal :=
  match d with
  | [] => none
  | (k', v) :: rest => if k' = k then some v else dget rest k

/-- `d[k] = v`: replace the binding for `k` (dict keys stay unique). -/
def dset (d : Dict) (k : String) (v : PyVal) : Dict :=
  (k, v) :: List.filter (fun p => p.1 ≠ k) d

/-- The environment of external collaborators of `config.py`: the unit-test
flag on `app`, `platformcfg.load`, `platformcfg.get`, and the theme/config
file `app.configfile` (`contains` and `get`, each taking `use_theme_data`). -/
structure Env where
  in_unit_tests : Bool
  platformLoad : Option Dict
  platformGet : Descriptor → PyVal
  configfileContains : String → Bool → Bool
  configfileGet : String → Bool → PyVal

/-- An idle task enqueued by `_notify_listeners`: the callback identity and
the `(key, value)` arguments it will be invoked with. -/
abbrev IdleTask := Nat × String × PyVal

/-- The module-level mutable state of `config.py`: `_data` (None until
loaded), `TEMPORARY_SETTINGS` (None unless temporary mode is active),
`_callbacks` (a set of callback identities), and the cooperative idle-task
queue that `eventloop.add_idle` appends to. -/
structure ConfigState where
  data : Option Dict
  TEMPORARY_SETTINGS : Option Dict
  callbacks : List Nat
  idle_queue : List IdleTask

/-- `init_temporary()`: switch on temporary mode with an empty override
layer. -/
def init_temporary (st : ConfigState) : ConfigState :=
  { st with TEMPORARY_SETTINGS := some [] }

/-- `add_change_callback(callback)`: `_callbacks.add(callback)` — a set
insertion, a no-op when the callback is already registered. -/
def add_change_callback (st : ConfigState) (c : Nat) : ConfigState :=
  { st with callbacks := if c ∈ st.callbacks then st.callbacks else st.callbacks ++ [c] }

/-- `remove_change_callback(callback)`: `_callbacks.discard(callback)` — a
set removal that does nothing when the callback is absent. -/
def remove_change_callback (st : ConfigState) (c : Nat) : ConfigState :=
  { st with callbacks := st.callbacks.filter (fun x => x ≠ c) }

/-- `load()`: reload `_data` from the platform backend (or a fresh dict in
unit tests), substituting an empty dict when the backend returns None.  The
`AppConfig(theme)` construction and the `APP_SERIAL` key rewrite touch
collaborators outside this state and are carried by `Env`. -/
def load (env : Env) (st : ConfigState) : ConfigState :=
  let d := if ¬ env.in_unit_tests then env.platformLoad else some []
  { st with data := some (d.getD []) }

/-- `_check_validity()`: load when `_data == None`. -/
def check_validity (env : Env) (st : ConfigState) : ConfigState :=
  if st.data = none then load env st else st

/-- `_notify_listeners(key, value)`: for each registered callback, append an
idle task carrying that callback and `(key, value)` to the event loop's
queue; no callback runs during the call itself. -/
def notify_listeners (st : ConfigState) (key : String) (value : PyVal) : ConfigState :=
  { st with idle_queue := st.idle_queue ++ st.callbacks.map (fun c => (c, key, value)) }

/-- The temporary-layer read in `get`: `TEMPORARY_SETTINGS and
descriptor.key in TEMPORARY_SETTINGS` — Python truthiness makes an empty
override dict fall through exactly like inactive temporary mode. -/
def lookupTemp : Option Dict → String → Option PyVal
  | none, _ => none
  | some t, k => if t.isEmpty then none else dget t k

/-- The allowed-value check in `get`: `descriptor.possible_values is not
None and not value in descriptor.possible_values` fails the check. -/
def pvOk (descriptor : Descriptor) (value : PyVal) : Bool :=
  match descriptor.possible_values with
  | none => true
  | some pvs => value ∈ pvs

/-- Result of `config.get`: the returned value, whether `logging.warn` fired
(the bad-preference-value warning), and the state after `_check_validity`'s
possible load. -/
structure GetResult where
  value : PyVal
  warned : Bool
  state : ConfigState

/-- `get(descriptor, use_theme_data=True)`: consult the temporary layer,
then `_data` (substituting the failsafe and warning when the stored value is
outside `possible_values`), then the platform backend for platform-specific
descriptors, then the theme/config file, then the declared default. -/
def get (env : Env) (st : ConfigState) (descriptor : Descriptor)
    (use_theme_data : Bool := true) : GetResult :=
  let st := check_validity env st
  match lookupTemp st.TEMPORARY_SETTINGS descriptor.key with
  | some v => ⟨v, false, st⟩
  | none =>
    match st.data.bind (fun d => dget d descriptor.key) with
    | some value =>
      if pvOk descriptor value then ⟨value, false, st⟩
      else ⟨descriptor.failsafe_value, true, st⟩
    | none =>
      if descriptor.platformSpecific then ⟨env.platformGet descriptor, false, st⟩
      else if env.configfileContains descriptor.key use_theme_data then
        ⟨env.configfileGet descriptor.key use_theme_data, false, st⟩
      else ⟨descriptor.default, false, st⟩

/-- The sentinel Python string used by `set` as the dict-absent default:
`TEMPORARY_SETTINGS.get(descriptor.key, "FAKE VALUE")`. -/
def FAKE_VALUE : PyVal := PyVal.pystr "FAKE VALUE"

/-- `set(descriptor, value)`: in temporary mode write the override layer
(when the looked-up-or-sentinel value differs) and notify; otherwise write
`_data` (when the key is absent or bound differently) and notify.
`_check_validity` guarantees `_data` is loaded before the non-temporary
branch runs, so the `none` arm of the inner match is unreachable. -/
def set (env : Env) (st : ConfigState) (descriptor : Descriptor) (value : PyVal) :
    ConfigState :=
  let st := check_validity env st
  match st.TEMPORARY_SETTINGS with
  | some t =>
    if (dget t descriptor.key).getD FAKE_VALUE ≠ value then
      notify_listeners { st with TEMPORARY_SETTINGS := some (dset t descriptor.key value) }
        descriptor.key value
    else st
  | none =>
    match st.data with
    | some d =>
      if dget d descriptor.key ≠ some value then
        notify_listeners { st with data := some (dset d descriptor.key value) }
          descriptor.key value
      else st
    | none => st

/-- `save()`: after `_check_validity`, hand `_data` to `platformcfg.save`;
the second component is the dict passed to the platform backend (`none` in
unit tests, where nothing is persisted). -/
def save (env : Env) (st : ConfigState) : ConfigState × Option Dict :=
  let st := check_validity env st
  (st, if ¬ env.in_unit_tests then st.data else none)

/-!
Item-list controller layer (`itemlistcontroller.py`).  Item ids are natural
numbers; the item list backing a controller is an association list from ids
to item infos, GTK tree iterators are identified with the ids they point at,
and the `timer.add` scheduler is an explicit list of pending timer entries.
-/

/-- The fields of an item info read by the animation machinery: its id and
its `state` string (the throbber animates while it is `"downloading"`). -/
structure ItemInfo where
  id : Nat
  state : String
  deriving DecidableEq, Repr

/-- The item list model: ids mapped to infos.  `get_item`/`get_iter` raise
`KeyError` for an absent id, embedded as `none`. -/
abbrev ItemListModel := List (Nat × ItemInfo)

/-- `item_list.get_item(item_id)`: first-match lookup, `none` = `KeyError`. -/
def get_item (il : ItemListModel) (item_id : Nat) : Option ItemInfo :=
  match il with
  | [] => none
  | (i, info) :: rest => if i = item_id then some info else get_item rest item_id

/-- `item_list.get_iter(id)`: an iterator for the row of `id`, identified
with the id itself; `none` = `KeyError` when the item is gone. -/
def get_iter (il : ItemListModel) (id_ : Nat) : Option Nat :=
  match get_item il id_ with
  | some _ => some id_
  | none => none

/-- `restore_selected_ids(selected_ids)`: collect an iterator per saved id,
skipping ids whose `get_iter` raises `KeyError`, and pass the survivors to
`current_item_view.set_selection`; the returned list is that selection. -/
def restore_selected_ids (il : ItemListModel) (selected_ids : List Nat) : List Nat :=
  selected_ids.filterMap (fun id_ => get_iter il id_)

/-- A pending `timer.add` entry of the animation manager: the delay, and the
`_do_iteration` arguments `(item_id, repeat_delay)`. -/
abbrev TimerEntry := ℚ × Nat × ℚ

/-- The overridable hooks of `AnimationManager`: the two delays and
`continue_animation`, whose Python return value is compared with
`rv != False` (the base class and the throbber may return `None`, embedded
as `none`). -/
structure AnimHooks where
  initial_delay : ItemInfo → ℚ
  repeat_delay : ItemInfo → ℚ
  continue_animation : ItemInfo → Option Bool

/-- The mutable state of an `AnimationManager`: the `currently_animating` id
set and the pending timer entries it has scheduled.  The `start_animation`,
`finish_animation` and `view.model_changed` hooks only touch the views. -/
structure AnimState where
  currently_animating : List Nat
  timers : List TimerEntry
  deriving DecidableEq, Repr

/-- `AnimationManager.start(item_info)`: for an id not yet animating, add it
to the set, and schedule one `_do_iteration(item_info.id, repeat_delay)`
after `initial_delay`; otherwise do nothing. -/
def AnimationManager.start (hooks : AnimHooks) (st : AnimState) (item_info : ItemInfo) :
    AnimState :=
  if item_info.id ∈ st.currently_animating then st
  else
    { currently_animating := item_info.id :: st.currently_animating,
      timers := st.timers ++
        [(hooks.initial_delay item_info, item_info.id, hooks.repeat_delay item_info)] }

/-- `AnimationManager._do_iteration(item_id, repeat_delay)`: when the item
has left the model (`KeyError`), drop its id from the animating set and
return; otherwise run `continue_animation` and either reschedule (when the
result is not `False`) or drop the id and finish the animation.  The Python
`set.remove` is embedded as removal (every call site holds the id in the
set). -/
def AnimationManager.do_iteration (hooks : AnimHooks) (il : ItemListModel)
    (st : AnimState) (item_id : Nat) (repeat_delay : ℚ) : AnimState :=
  match get_item il item_id with
  | none =>
    { st with currently_animating := st.currently_animating.filter (fun x => x ≠ item_id) }
  | some item_info =>
    if hooks.continue_animation item_info ≠ some false then
      { st with timers := st.timers ++ [(repeat_delay, item_id, repeat_delay)] }
    else
      { st with currently_animating := st.currently_animating.filter (fun x => x ≠ item_id) }

/-- `ThrobberAnimationManager`: 0.2-second delays; `continue_animation`
updates the throbber and falls off the end (`None`) while the item is
downloading, and otherwise finishes the throbber and returns `False`. -/
def ThrobberAnimationManager : AnimHooks where
  initial_delay := fun _ => 1 / 5
  repeat_delay := fun _ => 1 / 5
  continue_animation := fun item_info =>
    if item_info.state = "downloading" then none else some false

/-- An item view as seen by bulk changes: how many times
`start_bulk_change()` has been called on its widget. -/
structure ItemView where
  bulk_change_calls : Nat
  deriving DecidableEq, Repr

/-- `item_view.start_bulk_change()`. -/
def ItemView.start_bulk_change (v : ItemView) : ItemView :=
  { v with bulk_change_calls := v.bulk_change_calls + 1 }

/-- The controller state touched by `handle_items_will_change`: the item
views returned by `all_item_views()`, the current selection of ids, and the
`_selection_to_restore` slot. -/
structure Controller where
  views : List ItemView
  current_selection : List Nat
  selection_to_restore : Option (List Nat)
  deriving DecidableEq, Repr

/-- `item_list_will_change()`: remember the selected ids in
`_selection_to_restore` and `unselect_all()` the current view. -/
def item_list_will_change (c : Controller) : Controller :=
  { c with selection_to_restore := some c.current_selection, current_selection := [] }

/-- `start_bulk_change()`: call `start_bulk_change()` on every item view. -/
def Controller.start_bulk_change (c : Controller) : Controller :=
  { c with views := c.views.map ItemView.start_bulk_change }

/-- `handle_items_will_change(obj, added, changed, removed)`: save and clear
the selection, then enter bulk-change mode on every view when more than 100
items are being added or removed (`on_items_will_change` is a subclass hook
that defaults to a no-op). -/
def handle_items_will_change (c : Controller) (added changed removed : List ItemInfo) :
    Controller :=
  let c := item_list_will_change c
  if added.length + removed.length > 100 then c.start_bulk_change else c

/-- A Python unicode string in the sort-key functions, as its sequence of
characters (`key.startswith('-')` and the slice `key[1:]` operate on this
sequence). -/
abbrev PyStr := List Char

/-- `s.startswith(pre)`. -/
def pystartswith (s pre : PyStr) : Bool := pre.isPrefixOf s

/-- A sorter as consumed by `make_sort_key`: its `KEY` and ascending flag
(`is_ascending()`). -/
structure Sorter where
  KEY : PyStr
  ascending : Bool
  deriving DecidableEq, Repr

/-- `sorter.is_ascending()`. -/
def Sorter.is_ascending (s : Sorter) : Bool := s.ascending

/-- `parse_sort_key(key)`: a leading `'-'` marks a descending sort on the
rest of the string (`column = key[1:]`); otherwise the whole string sorts
ascending. -/
def parse_sort_key (key : PyStr) : PyStr × Bool :=
  if pystartswith key ['-'] then (key.drop 1, false) else (key, true)

/-- `make_sort_key(sorter)`: the sorter's `KEY`, prefixed with `u'-'` when
it is descending. -/
def make_sort_key (s : Sorter) : PyStr :=
  if s.is_ascending then s.KEY else ['-'] ++ s.KEY

/-!
Concrete fixtures used by witnesses and counterexamples.
-/

/-- An environment whose platform backend holds nothing, with the theme
file containing no keys. -/
def envW : Env :=
  ⟨false, some [], fun _ => PyVal.pyint 99, fun _ _ => false, fun _ _ => PyVal.pyint 98⟩

/-- A plain descriptor with no allowed-value set. -/
def descW : Descriptor := ⟨"k", PyVal.pyint 0, PyVal.pyint 1, none, false⟩

/-- A descriptor declaring the allowed values {1, 2}. -/
def descPV : Descriptor :=
  ⟨"k", PyVal.pyint 0, PyVal.pyint 1, some [PyVal.pyint 1, PyVal.pyint 2], false⟩

/-- Loaded empty data, temporary mode just initialized, no callbacks. -/
def stTemp : ConfigState := ⟨some [], some [], [], []⟩

/-- Loaded empty data, temporary mode active, callback 0 registered. -/
def stC3 : ConfigState := ⟨some [], some [], [0], []⟩

/-- Persisted data binding "k" out of descPV's allowed set, while the
temporary layer binds "k" to 7. -/
def stC4 : ConfigState := ⟨some [("k", PyVal.pyint 5)], some [("k", PyVal.pyint 7)], [], []⟩

/-- Loaded empty data, temporary mode inactive. -/
def stPlain : ConfigState := ⟨some [], none, [], []⟩

/-!
Helper lemmas about the embedded dict operations and `_check_validity`.
-/

theorem dget_dset_self (d : Dict) (k : String) (v : PyVal) :
    dget (dset d k v) k = some v := by
  simp [dget, dset]

theorem dget_isEmpty_false (t : Dict) (k : String) (v : PyVal)
    (h : dget t k = some v) : t.isEmpty = false := by
  cases t with
  | nil => simp [dget] at h
  | cons a l => simp

theorem lookupTemp_some_of_dget (t : Dict) (k : String) (v : PyVal)
    (h : dget t k = some v) : lookupTemp (some t) k = some v := by
  simp [lookupTemp, dget_isEmpty_false t k v h, h]

theorem check_validity_of_isSome (env : Env) (st : ConfigState)
    (h : st.data.isSome) : check_validity env st = st := by
  unfold check_validity
  cases hd : st.data with
  | none => rw [hd] at h; simp at h
  | some d => simp

theorem check_validity_data_isSome (env : Env) (st : ConfigState) :
    (check_validity env st).data.isSome := by
  unfold check_validity load
  cases hd : st.data with
  | none => simp
  | some d => simp [hd]

theorem check_validity_TEMPORARY_SETTINGS (env : Env) (st : ConfigState) :
    (check_validity env st).TEMPORARY_SETTINGS = st.TEMPORARY_SETTINGS := by
  unfold check_validity load
  split <;> rfl

theorem set_data_isSome (env : Env) (st : ConfigState) (descriptor : Descriptor)
    (value : PyVal) : (set env st descriptor value).data.isSome := by
  unfold set
  have hcv := check_validity_data_isSome env st
  cases hts : (check_validity env st).TEMPORARY_SETTINGS with
  | some t =>
    simp only [hts]
    split
    · simpa [notify_listeners] using hcv
    · exact hcv
  | none =>
    simp only [hts]
    cases hd : (check_validity env st).data with
    | none => rw [hd] at hcv; simp at hcv
    | some d =>
      simp only [hd]
      split
      · simp [notify_listeners]
      · exact hcv

/-!
Claim theorems.
-/

/-- C6: registering and removing a change callback are idempotent per
callback identity: adding a callback twice equals adding it once, removing
twice equals removing once, and removing a never-registered callback leaves
the state unchanged without failing. -/
theorem config_callback_idempotent (st : ConfigState) (c : Nat) :
    add_change_callback (add_change_callback st c) c = add_change_callback st c
  ∧ remove_change_callback (remove_change_callback st c) c = remove_change_callback st c
  ∧ (c ∉ st.callbacks → remove_change_callback st c = st) := by
  refine ⟨?_, ?_, ?_⟩
  · by_cases h : c ∈ st.callbacks <;> simp [add_change_callback, h]
  · simp [remove_change_callback, List.filter_filter]
  · intro h
    have hf : List.filter (fun x => decide (x ≠ c)) st.callbacks = st.callbacks := by
      apply List.filter_eq_self.mpr
      intro a ha
      simp only [ne_eq, decide_eq_true_eq]
      rintro rfl
      exact h ha
    simp only [remove_change_callback]
    rw [hf]

/-- Witness for C6 at a concrete state with callback 1 unregistered. -/
theorem config_callback_idempotent_witness :
    (1 : Nat) ∉ (ConfigState.mk none none [0] []).callbacks
  ∧ remove_change_callback (ConfigState.mk none none [0] []) 1 =
      ConfigState.mk none none [0] [] :=
  ⟨by decide, (config_callback_idempotent (ConfigState.mk none none [0] []) 1).2.2
      (by decide)⟩

/-- C8: sort-key encoding and parsing round-trip: for a sorter whose key
does not itself start with `'-'`, `parse_sort_key (make_sort_key sorter)`
recovers the key and the ascending flag; `parse_sort_key` maps a string
with a leading `'-'` to (rest, descending) and any other to (itself,
ascending). -/
theorem sort_key_roundtrip (s : Sorter) (h : pystartswith s.KEY ['-'] = false) :
    parse_sort_key (make_sort_key s) = (s.KEY, s.is_ascending)
  ∧ (∀ k : PyStr, pystartswith k ['-'] = true → parse_sort_key k = (k.drop 1, false))
  ∧ (∀ k : PyStr, pystartswith k ['-'] = false → parse_sort_key k = (k, true)) := by
  refine ⟨?_, ?_, ?_⟩
  · cases hasc : s.ascending with
    | false =>
      simp [make_sort_key, Sorter.is_ascending, hasc, parse_sort_key, pystartswith,
        List.isPrefixOf]
    | true =>
      simp [make_sort_key, Sorter.is_ascending, hasc, parse_sort_key, h]
  · intro k hk
    simp [parse_sort_key, hk]
  · intro k hk
    simp [parse_sort_key, hk]

/-- Witness for C8 on the descending sorter for the date column. -/
theorem sort_key_roundtrip_witness :
    pystartswith (Sorter.mk "date".data false).KEY ['-'] = false
  ∧ parse_sort_key (make_sort_key (Sorter.mk "date".data false)) =
      ((Sorter.mk "date".data false).KEY, (Sorter.mk "date".data false).is_ascending) :=
  ⟨by decide, (sort_key_roundtrip (Sorter.mk "date".data false) (by decide)).1⟩

/-- C9: a pending item-list change enters bulk-change mode on every item
view exactly when more than 100 items are added plus removed; changed
(updated-in-place) items play no part in the threshold. -/
theorem bulk_change_threshold (c : Controller) (added changed removed : List ItemInfo) :
    (added.length + removed.length > 100 →
      (handle_items_will_change c added changed removed).views =
        c.views.map ItemView.start_bulk_change)
  ∧ (¬ added.length + removed.length > 100 →
      (handle_items_will_change c added changed removed).views = c.views)
  ∧ (∀ changed2 : List ItemInfo,
      handle_items_will_change c added changed removed =
        handle_items_will_change c added changed2 removed) := by
  refine ⟨?_, ?_, ?_⟩
  · intro h
    simp [handle_items_will_change, item_list_will_change, Controller.start_bulk_change, h]
  · intro h
    simp [handle_items_will_change, item_list_will_change, Controller.start_bulk_change, h]
  · intro changed2
    rfl

/-- Witness for C9: 101 removals cross the threshold, with one view. -/
theorem bulk_change_threshold_witness :
    ([] : List ItemInfo).length +
      (List.replicate 101 (ItemInfo.mk 0 "x")).length > 100
  ∧ (handle_items_will_change (Controller.mk [ItemView.mk 0] [] none)
        [] [] (List.replicate 101 (ItemInfo.mk 0 "x"))).views =
      (Controller.mk [ItemView.mk 0] [] none).views.map ItemView.start_bulk_change :=
  ⟨by decide,
    (bulk_change_threshold (Controller.mk [ItemView.mk 0] [] none)
        [] [] (List.replicate 101 (ItemInfo.mk 0 "x"))).1 (by decide)⟩

theorem check_validity_of_some (env : Env) (st : ConfigState) (d : Dict)
    (h : st.data = some d) : check_validity env st = st :=
  check_validity_of_isSome env st (by rw [h]; rfl)

/-- C1: on a loaded state, `get` consults the sources in the fixed order
temporary-override layer (when temporary mode is active and the layer holds
the key), persisted data mapping (where an out-of-set value resolves to the
failsafe, per C4), platform backend for platform-specific descriptors,
theme/config file, and finally the declared default, returning at the first
layer that hits. -/
theorem config_get_consult_order (env : Env) (st : ConfigState)
    (descriptor : Descriptor) (u : Bool) (d : Dict) (hd : st.data = some d) :
    (∀ v, lookupTemp st.TEMPORARY_SETTINGS descriptor.key = some v →
      (get env st descriptor u).value = v)
  ∧ (∀ v, lookupTemp st.TEMPORARY_SETTINGS descriptor.key = none →
      dget d descriptor.key = some v →
      (get env st descriptor u).value =
        (if pvOk descriptor v then v else descriptor.failsafe_value))
  ∧ (lookupTemp st.TEMPORARY_SETTINGS descriptor.key = none →
      dget d descriptor.key = none → descriptor.platformSpecific = true →
      (get env st descriptor u).value = env.platformGet descriptor)
  ∧ (lookupTemp st.TEMPORARY_SETTINGS descriptor.key = none →
      dget d descriptor.key = none → descriptor.platformSpecific = false →
      env.configfileContains descriptor.key u = true →
      (get env st descriptor u).value = env.configfileGet descriptor.key u)
  ∧ (lookupTemp st.TEMPORARY_SETTINGS descriptor.key = none →
      dget d descriptor.key = none → descriptor.platformSpecific = false →
      env.configfileContains descriptor.key u = false →
      (get env st descriptor u).value = descriptor.default) := by
  have hcv : check_validity env st = st := check_validity_of_some env st d hd
  refine ⟨?_, ?_, ?_, ?_, ?_⟩
  · intro v hv
    simp [get, hcv, hv]
  · intro v hmiss hv
    by_cases hpv : pvOk descriptor v <;>
      simp [get, hcv, hmiss, hd, hv, hpv]
  · intro hmiss hmiss2 hplat
    simp [get, hcv, hmiss, hd, hmiss2, hplat]
  · intro hmiss hmiss2 hplat hcf
    simp [get, hcv, hmiss, hd, hmiss2, hplat, hcf]
  · intro hmiss hmiss2 hplat hcf
    simp [get, hcv, hmiss, hd, hmiss2, hplat, hcf]

/-- Witness for C1: with every earlier layer missing the key, `get` falls
through to the declared default. -/
theorem config_get_consult_order_witness :
    (get envW stPlain descW true).value = descW.default :=
  (config_get_consult_order envW stPlain descW true [] rfl).2.2.2.2 rfl rfl rfl rfl

/-- C5: while temporary mode is active, `set` writes only the in-memory
override layer: the persisted data mapping and the callback set are left
unchanged, and a subsequent `save` hands the platform backend the very same
dict as before the `set`, so nothing set in temporary mode is persisted. -/
theorem config_set_temporary_no_persist (env : Env) (st : ConfigState)
    (descriptor : Descriptor) (value : PyVal) (t d : Dict)
    (ht : st.TEMPORARY_SETTINGS = some t) (hd : st.data = some d) :
    (set env st descriptor value).data = st.data
  ∧ (set env st descriptor value).callbacks = st.callbacks
  ∧ (save env (set env st descriptor value)).2 = (save env st).2 := by
  have hcv : check_validity env st = st := check_validity_of_some env st d hd
  have hdata : (set env st descriptor value).data = st.data := by
    simp only [set, hcv, ht]
    split <;> simp [notify_listeners]
  refine ⟨hdata, ?_, ?_⟩
  · simp only [set, hcv, ht]
    split <;> simp [notify_listeners]
  · have hcv2 : check_validity env (set env st descriptor value) =
        set env st descriptor value :=
      check_validity_of_isSome env _ (set_data_isSome env st descriptor value)
    simp [save, hcv, hcv2, hdata]

/-- Witness for C5: a temporary-mode write of 5 leaves the loaded (empty)
data dict alone and `save` would persist the same dict. -/
theorem config_set_temporary_no_persist_witness :
    (set envW stTemp descW (PyVal.pyint 5)).data = stTemp.data
  ∧ (set envW stTemp descW (PyVal.pyint 5)).callbacks = stTemp.callbacks
  ∧ (save envW (set envW stTemp descW (PyVal.pyint 5))).2 = (save envW stTemp).2 :=
  config_set_temporary_no_persist envW stTemp descW (PyVal.pyint 5) [] [] rfl rfl

/-- C4 counterexample: with the temporary layer binding "k" to 7 while the
persisted mapping binds "k" to the out-of-set value 5, `get` returns 7 —
neither the stored value nor the failsafe — and no warning is logged, so
the claim's unconditional "whenever the persisted data mapping holds an
out-of-set value" fails. -/
theorem config_get_failsafe_counterexample :
    stC4.data = some [("k", PyVal.pyint 5)]
  ∧ dget [("k", PyVal.pyint 5)] descPV.key = some (PyVal.pyint 5)
  ∧ pvOk descPV (PyVal.pyint 5) = false
  ∧ (get envW stC4 descPV true).value = PyVal.pyint 7
  ∧ (get envW stC4 descPV true).value ≠ descPV.failsafe_value
  ∧ (get envW stC4 descPV true).warned = false :=
  ⟨rfl, rfl, by decide, rfl, by decide, rfl⟩

/-- C4 (amended): when the temporary layer does not hit the key and the
persisted data mapping holds a value outside the descriptor's declared
allowed set, `get` warns and returns the failsafe default instead of the
stored value. -/
theorem config_get_failsafe (env : Env) (st : ConfigState)
    (descriptor : Descriptor) (u : Bool) (d : Dict) (v : PyVal) (pvs : List PyVal)
    (hd : st.data = some d)
    (hmiss : lookupTemp st.TEMPORARY_SETTINGS descriptor.key = none)
    (hv : dget d descriptor.key = some v)
    (hpvs : descriptor.possible_values = some pvs)
    (hout : v ∉ pvs) :
    (get env st descriptor u).value = descriptor.failsafe_value
  ∧ (get env st descriptor u).warned = true := by
  have hcv : check_validity env st = st := check_validity_of_some env st d hd
  have hpv : pvOk descriptor v = false := by simp [pvOk, hpvs, hout]
  constructor <;> simp [get, hcv, hmiss, hd, hv, hpv]

/-- Witness for C4: temporary mode inactive, stored value 5 outside {1, 2}:
`get` warns and yields the failsafe 1. -/
theorem config_get_failsafe_witness :
    (get envW (ConfigState.mk (some [("k", PyVal.pyint 5)]) none [] []) descPV true).value =
      descPV.failsafe_value
  ∧ (get envW (ConfigState.mk (some [("k", PyVal.pyint 5)]) none [] []) descPV true).warned =
      true :=
  config_get_failsafe envW (ConfigState.mk (some [("k", PyVal.pyint 5)]) none [] [])
    descPV true [("k", PyVal.pyint 5)] (PyVal.pyint 5) [PyVal.pyint 1, PyVal.pyint 2]
    rfl rfl rfl rfl (by decide)

/-- C2 counterexample: in temporary mode, `set` of the sentinel string
"FAKE VALUE" for a key absent from the override layer is silently dropped
(the `dict.get` default makes the inequality test fail), so the immediately
following `get` returns the declared default 0 rather than the written
value. -/
theorem config_get_after_set_counterexample :
    stTemp.TEMPORARY_SETTINGS = some []
  ∧ (get envW (set envW stTemp descW FAKE_VALUE) descW true).value = descW.default
  ∧ (get envW (set envW stTemp descW FAKE_VALUE) descW true).value ≠ FAKE_VALUE :=
  ⟨rfl, rfl, by decide⟩

/-- C2 (amended): in temporary mode, `get` immediately after `set` returns
the written value provided the override layer already held the key or the
written value is not the sentinel string "FAKE VALUE"; when the key is
absent and the value is exactly the sentinel, `set` silently stores
nothing. -/
theorem config_get_after_set_temporary (env : Env) (st : ConfigState)
    (descriptor : Descriptor) (value : PyVal) (t : Dict) (u : Bool)
    (ht : st.TEMPORARY_SETTINGS = some t)
    (hv : dget t descriptor.key ≠ none ∨ value ≠ FAKE_VALUE) :
    (get env (set env st descriptor value) descriptor u).value = value := by
  have hcvT : (check_validity env st).TEMPORARY_SETTINGS = some t := by
    rw [check_validity_TEMPORARY_SETTINGS, ht]
  have hset : set env st descriptor value =
      (if (dget t descriptor.key).getD FAKE_VALUE ≠ value then
        notify_listeners
          { check_validity env st with
              TEMPORARY_SETTINGS := some (dset t descriptor.key value) }
          descriptor.key value
      else check_validity env st) := by
    simp only [set, hcvT]
  have hlook : lookupTemp (set env st descriptor value).TEMPORARY_SETTINGS
      descriptor.key = some value := by
    by_cases hne : (dget t descriptor.key).getD FAKE_VALUE = value
    · have hdg : dget t descriptor.key = some value := by
        cases hdgt : dget t descriptor.key with
        | none =>
          rw [hdgt] at hne
          simp only [Option.getD_none] at hne
          rcases hv with h1 | h2
          · exact absurd hdgt h1
          · exact absurd hne.symm h2
        | some w =>
          rw [hdgt] at hne
          simp only [Option.getD_some] at hne
          rw [hne]
      rw [hset, if_neg (not_not_intro hne), hcvT]
      exact lookupTemp_some_of_dget t descriptor.key value hdg
    · rw [hset, if_pos hne]
      simpa [notify_listeners] using
        lookupTemp_some_of_dget (dset t descriptor.key value) descriptor.key value
          (dget_dset_self t descriptor.key value)
  have hcv2 : check_validity env (set env st descriptor value) =
      set env st descriptor value :=
    check_validity_of_isSome env _ (set_data_isSome env st descriptor value)
  simp [get, hcv2, hlook]

/-- Witness for C2: a temporary-mode write of 5 to a fresh key is read
straight back. -/
theorem config_get_after_set_temporary_witness :
    (get envW (set envW stTemp descW (PyVal.pyint 5)) descW true).value = PyVal.pyint 5 :=
  config_get_after_set_temporary envW stTemp descW (PyVal.pyint 5) [] true rfl
    (Or.inr (by decide))

/-- C3 counterexample: with callback 0 registered and temporary mode
active, `set` of the sentinel string "FAKE VALUE" for an absent key
enqueues no notification even though the key was absent, contradicting the
claimed "if and only if the key was absent or mapped to a different
value". -/
theorem config_set_notify_counterexample :
    stC3.TEMPORARY_SETTINGS = some []
  ∧ dget [] descW.key = none
  ∧ stC3.callbacks = [0]
  ∧ (set envW stC3 descW FAKE_VALUE).idle_queue = [] :=
  ⟨rfl, rfl, rfl, rfl⟩

/-- C3 (amended): `set` never invokes a callback synchronously; it appends
one idle task per registered callback, carrying the key and new value,
exactly when the branch's change test passes: outside temporary mode, when
the persisted mapping lacks the key or binds it to a different value; in
temporary mode, when the override layer's looked-up-or-sentinel value
differs from the new value (so writing the sentinel string "FAKE VALUE" to
an absent key notifies nothing). -/
theorem config_set_notification (env : Env) (st : ConfigState)
    (descriptor : Descriptor) (value : PyVal) (t d : Dict)
    (hd : st.data = some d) :
    (st.TEMPORARY_SETTINGS = some t →
      (set env st descriptor value).idle_queue =
        (if (dget t descriptor.key).getD FAKE_VALUE ≠ value then
          st.idle_queue ++ st.callbacks.map (fun c => (c, descriptor.key, value))
        else st.idle_queue))
  ∧ (st.TEMPORARY_SETTINGS = none →
      (set env st descriptor value).idle_queue =
        (if dget d descriptor.key ≠ some value then
          st.idle_queue ++ st.callbacks.map (fun c => (c, descriptor.key, value))
        else st.idle_queue)) := by
  have hcv : check_validity env st = st := check_validity_of_some env st d hd
  constructor
  · intro hts
    simp only [set, hcv, hts]
    split <;> simp [notify_listeners]
  · intro hts
    simp only [set, hcv, hts, hd]
    split <;> simp [notify_listeners]

/-- Witness for C3: outside temporary mode, setting a fresh key with
callback 0 registered enqueues exactly the one task (0, "k", 5). -/
theorem config_set_notification_witness :
    (set envW (ConfigState.mk (some []) none [0] []) descW (PyVal.pyint 5)).idle_queue =
      (if dget [] descW.key ≠ some (PyVal.pyint 5) then
        (ConfigState.mk (some []) none [0] []).idle_queue ++
          (ConfigState.mk (some []) none [0] []).callbacks.map
            (fun c => (c, descW.key, PyVal.pyint 5))
      else (ConfigState.mk (some []) none [0] []).idle_queue) :=
  (config_set_notification envW (ConfigState.mk (some []) none [0] [])
      descW (PyVal.pyint 5) [] [] rfl).2 rfl

/-- C7: restoring a saved selection selects exactly the saved ids still
present in the item list — an id removed from the model raises a caught
`KeyError` and is silently skipped while the rest stay selected — and an
animation iteration whose item has left the model removes that id from the
animating set, schedules nothing further, and does not fail. -/
theorem restore_selection_skips_missing (il : ItemListModel) (sel : List Nat)
    (hooks : AnimHooks) (st : AnimState) (item_id : Nat) (rd : ℚ) :
    restore_selected_ids il sel = sel.filter (fun id_ => (get_item il id_).isSome)
  ∧ (get_item il item_id = none →
      AnimationManager.do_iteration hooks il st item_id rd =
        { st with currently_animating :=
            st.currently_animating.filter (fun x => x ≠ item_id) }) := by
  constructor
  · induction sel with
    | nil => rfl
    | cons a tl ih =>
      simp only [restore_selected_ids, get_iter] at ih ⊢
      cases h : get_item il a <;>
        simp [List.filterMap_cons, List.filter_cons, h, ih]
  · intro h
    simp [AnimationManager.do_iteration, h]

/-- Witness for C7: of the saved ids [1, 2, 3] only 1 and 3 are still in
the list and get reselected, and an iteration for the vanished id 5 empties
the animating set. -/
theorem restore_selection_skips_missing_witness :
    restore_selected_ids [(1, ItemInfo.mk 1 "x"), (3, ItemInfo.mk 3 "y")] [1, 2, 3] = [1, 3]
  ∧ AnimationManager.do_iteration ThrobberAnimationManager []
      (AnimState.mk [5] []) 5 (1 / 5) = AnimState.mk [] [] := by
  have h1 := restore_selection_skips_missing
    [(1, ItemInfo.mk 1 "x"), (3, ItemInfo.mk 3 "y")] [1, 2, 3]
    ThrobberAnimationManager (AnimState.mk [5] []) 5 (1 / 5)
  have h2 := restore_selection_skips_missing [] [1, 2, 3]
    ThrobberAnimationManager (AnimState.mk [5] []) 5 (1 / 5)
  exact ⟨by rw [h1.1]; decide, by rw [h2.2 rfl]; decide⟩

/-- C10: each item id has at most one live animation: `start` on an id
already animating changes nothing and schedules no timer; `start` on a new
id records it (preserving distinctness of the animating ids) and schedules
exactly one iteration-chain timer; `_do_iteration` removes an id from the
set exactly when its item has disappeared from the list or its
`continue_animation` step returns `False`, and otherwise reschedules
leaving the set unchanged. -/
theorem animation_at_most_one (hooks : AnimHooks) (st : AnimState)
    (item_info : ItemInfo) (il : ItemListModel) (item_id : Nat) (rd : ℚ) :
    (item_info.id ∈ st.currently_animating →
      AnimationManager.start hooks st item_info = st)
  ∧ (item_info.id ∉ st.currently_animating →
      AnimationManager.start hooks st item_info =
        AnimState.mk (item_info.id :: st.currently_animating)
          (st.timers ++ [(hooks.initial_delay item_info, item_info.id,
            hooks.repeat_delay item_info)]))
  ∧ (st.currently_animating.Nodup →
      (AnimationManager.start hooks st item_info).currently_animating.Nodup)
  ∧ (∀ info, get_item il item_id = some info →
      hooks.continue_animation info ≠ some false →
      (AnimationManager.do_iteration hooks il st item_id rd).currently_animating =
          st.currently_animating
      ∧ (AnimationManager.do_iteration hooks il st item_id rd).timers =
          st.timers ++ [(rd, item_id, rd)])
  ∧ (∀ info, get_item il item_id = some info →
      hooks.continue_animation info = some false →
      (AnimationManager.do_iteration hooks il st item_id rd).currently_animating =
        st.currently_animating.filter (fun x => x ≠ item_id))
  ∧ (get_item il item_id = none →
      (AnimationManager.do_iteration hooks il st item_id rd).currently_animating =
        st.currently_animating.filter (fun x => x ≠ item_id)) := by
  refine ⟨?_, ?_, ?_, ?_, ?_, ?_⟩
  · intro h
    simp [AnimationManager.start, h]
  · intro h
    simp [AnimationManager.start, h]
  · intro h
    by_cases hm : item_info.id ∈ st.currently_animating
    · simpa [AnimationManager.start, hm]
    · simpa [AnimationManager.start, hm] using List.nodup_cons.mpr ⟨hm, h⟩
  · intro info hi hc
    constructor <;> simp [AnimationManager.do_iteration, hi, hc]
  · intro info hi hc
    simp [AnimationManager.do_iteration, hi, hc]
  · intro h
    simp [AnimationManager.do_iteration, h]

/-- Witness for C10: starting the throbber on the fresh id 5 schedules one
0.2-second timer, and an iteration while the item is still downloading
reschedules without touching the animating set. -/
theorem animation_at_most_one_witness :
    AnimationManager.start ThrobberAnimationManager (AnimState.mk [] [])
        (ItemInfo.mk 5 "downloading") =
      AnimState.mk [5] [(1 / 5, 5, 1 / 5)]
  ∧ (AnimationManager.do_iteration ThrobberAnimationManager
        [(5, ItemInfo.mk 5 "downloading")] (AnimState.mk [5] []) 5
        (1 / 5)).currently_animating = [5] := by
  have h := animation_at_most_one ThrobberAnimationManager (AnimState.mk [] [])
    (ItemInfo.mk 5 "downloading") [(5, ItemInfo.mk 5 "downloading")] 5 (1 / 5)
  have h2 := animation_at_most_one ThrobberAnimationManager (AnimState.mk [5] [])
    (ItemInfo.mk 5 "downloading") [(5, ItemInfo.mk 5 "downloading")] 5 (1 / 5)
  exact ⟨h.2.1 (by decide),
    ((h2.2.2.2.1 (ItemInfo.mk 5 "downloading") rfl (by decide)).1)⟩

end Miro
